import Mathlib

/-!
Shallow embedding of the two AWS facts modules of this repository:
`cloud/amazon/ec2_group_facts.py` and `cloud/amazon/iam_user_facts.py`.

The AWS SDK (boto / boto3) is the external inventory provider; it is modelled
as a record of call results (`AwsEnv`, `IamConn`).  `module.fail_json` exits
the module with a structured message and `module.exit_json` emits the result;
an uncaught Python exception aborts the module without a structured message.
These three terminations are modelled by `Except ModuleExit` results, where
`ModuleExit.failJson` carries the `fail_json` message and `ModuleExit.uncaught`
carries a provider error that no handler caught.
-/

set_option autoImplicit false

namespace Ec2GroupFacts

/-- A boto `BotoServerError`: it carries `error_code` and `error_message`
(`e.message` is an alias of `error_message`). -/
structure ProviderError where
  error_code : String
  error_message : String
  deriving Repr, DecidableEq

/-- How the module terminates abnormally: `failJson msg` models
`module.fail_json(msg=...)`, `uncaught e` models a provider exception that no
`try/except` in the module catches. -/
inductive ModuleExit where
  | failJson (msg : String)
  | uncaught (e : ProviderError)
  deriving Repr, DecidableEq

/-- One grant entry of a security-group permission rule (boto grant object):
`group_id` is the referenced security-group identifier, `cidr_ip` the CIDR
block; either may be absent. -/
structure Grant where
  group_id : Option String
  cidr_ip : Option String
  deriving Repr, DecidableEq

/-- One entry of `group.rules` / `group.rules_egress` (boto rule object). -/
structure PermissionRule where
  ip_protocol : String
  from_port : Option Int
  to_port : Option Int
  grants : List Grant
  deriving Repr, DecidableEq

/-- One flattened rule record as built by `get_group_rules`. -/
structure RuleRecord where
  ip_protocol : String
  from_port : Option Int
  to_port : Option Int
  grants : List String
  deriving Repr, DecidableEq

/-- The body of the inner grant loop of `get_group_rules`
(ec2_group_facts.py lines 220-224): `if grant.group_id is not None:` append
`grant.group_id`, `elif grant.cidr_ip is not None:` append `grant.cidr_ip`,
otherwise append nothing. -/
def flattenGrant (g : Grant) : Option String :=
  match g.group_id with
  | some gid => some gid
  | none =>
    match g.cidr_ip with
    | some c => some c
    | none => none

/-- `get_group_rules(PermissionList)` (ec2_group_facts.py lines 214-234):
for each rule build one record with the rule's protocol and port range and
the flattened grant strings, in input order. -/
def get_group_rules (PermissionList : List PermissionRule) : List RuleRecord :=
  PermissionList.map fun rule =>
    { ip_protocol := rule.ip_protocol
      from_port := rule.from_port
      to_port := rule.to_port
      grants := rule.grants.filterMap flattenGrant }

/-- A security group as returned by `get_all_security_groups` (boto group
object; the fields the module reads). -/
structure SecurityGroup where
  id : String
  name : String
  description : String
  vpc_id : Option String
  rules : List PermissionRule
  rules_egress : List PermissionRule
  deriving Repr, DecidableEq

/-- A boto EC2 instance object (only `.id` is read). -/
structure Ec2Instance where
  id : String
  deriving Repr, DecidableEq

/-- A boto load-balancer object (the fields the module reads). -/
structure Elb where
  name : String
  security_groups : List String
  deriving Repr, DecidableEq

/-- A boto network-interface object (only `.id` is read). -/
structure Eni where
  id : String
  deriving Repr, DecidableEq

/-- One entry of `rds.vpc_security_groups` (only `.vpc_group` is read). -/
structure VpcMembership where
  vpc_group : String
  deriving Repr, DecidableEq

/-- A boto RDS instance object (the fields the module reads). -/
structure RdsInstance where
  id : String
  vpc_security_groups : List VpcMembership
  deriving Repr, DecidableEq

/-- `filters` module parameter, passed opaquely to the provider. -/
abbrev Filters := List (String × String)

/-- The inventory provider (boto connections): each field is the result of the
corresponding describe/list call.  `group_instances` is `group.instances()`
keyed by the group id, `get_all_network_interfaces` is keyed by the
`group-id` filter value the module passes. -/
structure AwsEnv where
  get_all_security_groups : Filters → Except ProviderError (List SecurityGroup)
  group_instances : String → Except ProviderError (List Ec2Instance)
  get_all_load_balancers : Except ProviderError (List Elb)
  get_all_network_interfaces : String → Except ProviderError (List Eni)
  get_all_dbinstances : Except ProviderError (List RdsInstance)

/-- `get_rds_instances(module, group)` (ec2_group_facts.py lines 145-162):
fetch all RDS instances; on `BotoServerError` call
`fail_json(msg = "%s: %s" % (e.error_code, e.error_message))`; otherwise for
each instance append its id once per VPC security-group membership whose
`vpc_group` equals `group.id`. -/
def get_rds_instances (env : AwsEnv) (group : SecurityGroup) :
    Except ModuleExit (List String) :=
  match env.get_all_dbinstances with
  | Except.error e =>
      Except.error (ModuleExit.failJson (e.error_code ++ ": " ++ e.error_message))
  | Except.ok all_rds =>
      Except.ok (all_rds.flatMap fun rds =>
        rds.vpc_security_groups.filterMap fun membership =>
          if group.id = membership.vpc_group then some rds.id else none)

/-- `get_network_interfaces(module, group)` (ec2_group_facts.py lines
165-180): fetch the interfaces filtered by `group-id`; on `BotoServerError`
call `fail_json(msg = "%s: %s" % (e.error_code, e.error_message))`; otherwise
collect the interface ids. -/
def get_network_interfaces (env : AwsEnv) (group : SecurityGroup) :
    Except ModuleExit (List String) :=
  match env.get_all_network_interfaces group.id with
  | Except.error e =>
      Except.error (ModuleExit.failJson (e.error_code ++ ": " ++ e.error_message))
  | Except.ok all_enis => Except.ok (all_enis.map Eni.id)

/-- `get_associated_loadbalancers(module, group)` (ec2_group_facts.py lines
183-199): fetch all load balancers; on `BotoServerError` call
`fail_json(msg = "%s: %s" % (e.error_code, e.error_message))`; otherwise
collect the names of those whose `security_groups` contain `group.id`. -/
def get_associated_loadbalancers (env : AwsEnv) (group : SecurityGroup) :
    Except ModuleExit (List String) :=
  match env.get_all_load_balancers with
  | Except.error e =>
      Except.error (ModuleExit.failJson (e.error_code ++ ": " ++ e.error_message))
  | Except.ok all_elbs =>
      Except.ok (all_elbs.filterMap fun elb =>
        if elb.security_groups.contains group.id then some elb.name else none)

/-- `get_associated_instances(group)` (ec2_group_facts.py lines 202-211):
call `group.instances()` and collect the instance ids.  There is no
`try/except` here, so a provider error propagates as an uncaught exception. -/
def get_associated_instances (env : AwsEnv) (group : SecurityGroup) :
    Except ModuleExit (List String) :=
  match env.group_instances group.id with
  | Except.error e => Except.error (ModuleExit.uncaught e)
  | Except.ok associated_instances =>
      Except.ok (associated_instances.map Ec2Instance.id)

/-- The lookup test `any(x in lookup for x in [kind, 'all'])` used by
`get_group_info` for each of the four resource kinds. -/
def requested (lookup : List String) (kind : String) : Bool :=
  [kind, "all"].any fun x => lookup.contains x

/-- The output record built by `get_group_info`; `resources` is the nested
`group_info['resources']` dict, kept as a key-value list in insertion
order. -/
structure GroupInfo where
  id : String
  name : String
  description : String
  vpc_id : Option String
  rules : List RuleRecord
  rules_egress : List RuleRecord
  resources : List (String × List String)
  deriving Repr, DecidableEq

/-- `get_group_info(connection, module, group)` (ec2_group_facts.py lines
237-269): flatten both rule lists, then for each kind in the order ec2, elb,
eni, rds either run its lookup (when requested directly or via `all`) or
store `[]`.  A `fail_json` inside a lookup exits the module at that point,
which the `Except` threading models. -/
def get_group_info (env : AwsEnv) (lookup : List String) (group : SecurityGroup) :
    Except ModuleExit GroupInfo :=
  match (if requested lookup "ec2" then get_associated_instances env group
         else Except.ok []) with
  | Except.error e => Except.error e
  | Except.ok ec2Res =>
  match (if requested lookup "elb" then get_associated_loadbalancers env group
         else Except.ok []) with
  | Except.error e => Except.error e
  | Except.ok elbRes =>
  match (if requested lookup "eni" then get_network_interfaces env group
         else Except.ok []) with
  | Except.error e => Except.error e
  | Except.ok eniRes =>
  match (if requested lookup "rds" then get_rds_instances env group
         else Except.ok []) with
  | Except.error e => Except.error e
  | Except.ok rdsRes =>
      Except.ok
        { id := group.id
          name := group.name
          description := group.description
          vpc_id := group.vpc_id
          rules := get_group_rules group.rules
          rules_egress := get_group_rules group.rules_egress
          resources := [("ec2", ec2Res), ("elb", elbRes),
                        ("eni", eniRes), ("rds", rdsRes)] }

/-- The per-group loop of `list_group` (ec2_group_facts.py lines 283-284):
build the `group_dict_array` in order; a `fail_json` inside `get_group_info`
exits the module before anything is emitted. -/
def collect_group_infos (env : AwsEnv) (lookup : List String) :
    List SecurityGroup → Except ModuleExit (List GroupInfo)
  | [] => Except.ok []
  | group :: rest =>
    match get_group_info env lookup group with
    | Except.error e => Except.error e
    | Except.ok info =>
      match collect_group_infos env lookup rest with
      | Except.error e => Except.error e
      | Except.ok arr => Except.ok (info :: arr)

/-- `list_group(connection, module)` (ec2_group_facts.py lines 272-286):
fetch the groups matching `filters`; on `BotoServerError` call
`fail_json(msg=e.message)` (only the message, `e.message` being the
`error_message`); otherwise build the per-group records and
`exit_json(groups=...)`. -/
def list_group (env : AwsEnv) (filters : Filters) (lookup : List String) :
    Except ModuleExit (List GroupInfo) :=
  match env.get_all_security_groups filters with
  | Except.error e => Except.error (ModuleExit.failJson e.error_message)
  | Except.ok all_groups => collect_group_infos env lookup all_groups

end Ec2GroupFacts

namespace IamUserFacts

open Ec2GroupFacts (ProviderError ModuleExit)

/-- An IAM user as returned by the provider (the fields the claims touch;
`exit_json` additionally snake-cases the key names, a pure renaming that is
not modelled). -/
structure IamUser where
  UserName : String
  Path : String
  UserId : String
  Arn : String
  deriving Repr, DecidableEq

/-- The `params` dict that `list_iam_users` builds up and passes to
`connection.list_users(**params)`; a `none` field is a key absent from the
dict. -/
structure ListUsersParams where
  UserName : Option String
  MaxItems : Option Nat
  PathPrefix : Option String
  deriving Repr, DecidableEq

/-- One provider call issued by `list_iam_users`, recorded in order. -/
inductive IamCall where
  | getUser (userName : String)
  | listUsers (params : ListUsersParams)
  deriving Repr, DecidableEq

/-- The IAM provider (boto3 client): results of `get_user` by user name and
of `list_users` by the params dict passed. -/
structure IamConn where
  getUser : String → Except ProviderError IamUser
  listUsers : ListUsersParams → Except ProviderError (List IamUser)

/-- Python truthiness of the optional `name` parameter (absent or empty
string is falsy). -/
def pyTruthy (s : Option String) : Bool :=
  match s with
  | none => false
  | some t => !t.isEmpty

/-- `list_iam_users(connection, module)` (iam_user_facts.py lines 96-121),
with the two module parameters made explicit and the provider calls recorded
in a trace.  Faithful to the source's sequential structure:
`if name and not path:` set `params['UserName']`, call `get_user` and
`fail_json` on a provider error; `if path:` set `params['MaxItems'] = 1000`
and `params['PathPrefix'] = path`; then always reassign `iam_users` to the
result of `list_users(**params)` (which discards a successful `get_user`
result), `fail_json` on a provider error; finally `if name:` keep only the
users whose `UserName` equals `name`.  The two arms below inline the two
sequential `if`s: in the first arm `if path:` adds nothing because `path` is
empty, in the second arm `params['UserName']` is never set because the first
`if` did not fire. -/
def list_iam_users (conn : IamConn) (name : Option String) (path : String) :
    List IamCall × Except ModuleExit (List IamUser) :=
  let n := name.getD ""
  if pyTruthy name && path.isEmpty then
    match conn.getUser n with
    | Except.error e =>
        ([IamCall.getUser n], Except.error (ModuleExit.failJson e.error_message))
    | Except.ok _ =>
        let params : ListUsersParams := ⟨some n, none, none⟩
        match conn.listUsers params with
        | Except.error e =>
            ([IamCall.getUser n, IamCall.listUsers params],
             Except.error (ModuleExit.failJson e.error_message))
        | Except.ok iam_users =>
            ([IamCall.getUser n, IamCall.listUsers params],
             Except.ok (iam_users.filter fun user => user.UserName == n))
  else
    let params : ListUsersParams :=
      if path.isEmpty then ⟨none, none, none⟩ else ⟨none, some 1000, some path⟩
    match conn.listUsers params with
    | Except.error e =>
        ([IamCall.listUsers params], Except.error (ModuleExit.failJson e.error_message))
    | Except.ok iam_users =>
        ([IamCall.listUsers params],
         Except.ok (if pyTruthy name
                    then iam_users.filter fun user => user.UserName == n
                    else iam_users))

/-- `main()` of iam_user_facts.py (lines 124-143): the argument spec gives
`name` no default (absent stays `None`) and gives `path` the default `'/'`
(lines 129-130), then calls `list_iam_users`. -/
def iam_main (conn : IamConn) (name : Option String) (path : Option String) :
    List IamCall × Except ModuleExit (List IamUser) :=
  list_iam_users conn name (path.getD "/")

end IamUserFacts

namespace Ec2GroupFacts

/-! Concrete data used to evaluate the definitions on closed inputs. -/

/-- A small concrete security group. -/
def sgExample : SecurityGroup :=
  { id := "sg-1", name := "default", description := "example group",
    vpc_id := some "vpc-1", rules := [], rules_egress := [] }

/-- An RDS inventory whose single instance lists the same VPC security group
twice among its memberships. -/
def rdsDupInventory : List RdsInstance :=
  [{ id := "db1", vpc_security_groups := [⟨"sg-1"⟩, ⟨"sg-1"⟩] }]

/-- An environment whose RDS inventory is `rdsDupInventory` and whose other
calls succeed with empty inventories. -/
def envRdsDup : AwsEnv :=
  { get_all_security_groups := fun _ => Except.ok [sgExample]
    group_instances := fun _ => Except.ok []
    get_all_load_balancers := Except.ok []
    get_all_network_interfaces := fun _ => Except.ok []
    get_all_dbinstances := Except.ok rdsDupInventory }

/-- An environment in which every provider call fails with the same error. -/
def envAllFail : AwsEnv :=
  { get_all_security_groups := fun _ => Except.error ⟨"Throttling", "rate exceeded"⟩
    group_instances := fun _ => Except.error ⟨"Throttling", "rate exceeded"⟩
    get_all_load_balancers := Except.error ⟨"Throttling", "rate exceeded"⟩
    get_all_network_interfaces := fun _ => Except.error ⟨"Throttling", "rate exceeded"⟩
    get_all_dbinstances := Except.error ⟨"Throttling", "rate exceeded"⟩ }

/-- An environment in which only the initial group listing fails. -/
def envListFail : AwsEnv :=
  { get_all_security_groups := fun _ => Except.error ⟨"AuthFailure", "denied"⟩
    group_instances := fun _ => Except.ok []
    get_all_load_balancers := Except.ok []
    get_all_network_interfaces := fun _ => Except.ok []
    get_all_dbinstances := Except.ok [] }

/-- A second concrete security group. -/
def sgExample2 : SecurityGroup :=
  { id := "sg-2", name := "web", description := "web group",
    vpc_id := some "vpc-1", rules := [], rules_egress := [] }

/-- A third concrete security group. -/
def sgExample3 : SecurityGroup :=
  { id := "sg-3", name := "db", description := "db group",
    vpc_id := some "vpc-1", rules := [], rules_egress := [] }

/-- An environment listing three groups in which only the network-interface
call for the third group fails. -/
def envEniFail : AwsEnv :=
  { get_all_security_groups :=
      fun _ => Except.ok [sgExample, sgExample2, sgExample3]
    group_instances := fun _ => Except.ok []
    get_all_load_balancers := Except.ok []
    get_all_network_interfaces := fun gid =>
      if gid = "sg-3" then Except.error ⟨"AuthFailure", "denied"⟩
      else Except.ok []
    get_all_dbinstances := Except.ok [] }

/-- The record `get_group_info` produces under an empty lookup list. -/
def infoEmptyLookup : GroupInfo :=
  { id := "sg-1", name := "default", description := "example group",
    vpc_id := some "vpc-1", rules := [], rules_egress := [],
    resources := [("ec2", []), ("elb", []), ("eni", []), ("rds", [])] }

/-! Helper lemmas shared by the claim theorems. -/

example :
    get_group_rules
      [{ ip_protocol := "tcp", from_port := some 80, to_port := some 80,
         grants := [{ group_id := none, cidr_ip := some "0.0.0.0/0" },
                    { group_id := some "sg-1", cidr_ip := some "10.0.0.0/8" },
                    { group_id := none, cidr_ip := none }] }]
      = [{ ip_protocol := "tcp", from_port := some 80, to_port := some 80,
           grants := ["0.0.0.0/0", "sg-1"] }] := by decide

/-- Inversion of a successful `get_group_info`: each of the four per-kind
results succeeded (or was short-circuited to `[]`), and the output record is
the one built from them. -/
lemma get_group_info_ok_shape (env : AwsEnv) (lookup : List String)
    (group : SecurityGroup) (info : GroupInfo)
    (h : get_group_info env lookup group = Except.ok info) :
    ∃ a b c d,
      (if requested lookup "ec2" then get_associated_instances env group
       else Except.ok []) = Except.ok a ∧
      (if requested lookup "elb" then get_associated_loadbalancers env group
       else Except.ok []) = Except.ok b ∧
      (if requested lookup "eni" then get_network_interfaces env group
       else Except.ok []) = Except.ok c ∧
      (if requested lookup "rds" then get_rds_instances env group
       else Except.ok []) = Except.ok d ∧
      info = { id := group.id, name := group.name,
               description := group.description, vpc_id := group.vpc_id,
               rules := get_group_rules group.rules,
               rules_egress := get_group_rules group.rules_egress,
               resources := [("ec2", a), ("elb", b), ("eni", c), ("rds", d)] } := by
  unfold get_group_info at h
  split at h
  · simp at h
  next a ha =>
    split at h
    · simp at h
    next b hb =>
      split at h
      · simp at h
      next c hc =>
        split at h
        · simp at h
        next d hd =>
          cases h
          exact ⟨a, b, c, d, ha, hb, hc, hd, rfl⟩

/-- A flattened grant string is verbatim the grant's referenced group id, or,
when that is absent, its CIDR string. -/
lemma flattenGrant_eq_some (g : Grant) (s : String) (h : flattenGrant g = some s) :
    g.group_id = some s ∨ (g.group_id = none ∧ g.cidr_ip = some s) := by
  rcases hg : g.group_id with _ | gid
  · rcases hc : g.cidr_ip with _ | c
    · simp [flattenGrant, hg, hc] at h
    · simp [flattenGrant, hg, hc] at h
      exact Or.inr ⟨rfl, by rw [h]⟩
  · simp [flattenGrant, hg] at h
    exact Or.inl (by rw [h])

/-- C5: `normalize` (`get_group_rules`) returns exactly one record per
permission entry, in input order; record `i` carries entry `i`'s protocol,
from-port and to-port, and its grant strings are the flattened grants of
entry `i` in the order of that entry's grant entries. -/
theorem C5_normalize_preserves_count_and_order (l : List PermissionRule) :
    (get_group_rules l).length = l.length ∧
    ∀ i : Nat, (get_group_rules l)[i]? = (l[i]?).map fun rule =>
      RuleRecord.mk rule.ip_protocol rule.from_port rule.to_port
        (rule.grants.filterMap flattenGrant) := by
  constructor
  · simp [get_group_rules]
  · intro i
    simp [get_group_rules]

/-- C6: every grant string emitted by `get_group_rules` is verbatim either
the grant's referenced security-group identifier or (only when the group
reference is absent) its CIDR string — never both and never a combined
form — and a grant with neither contributes nothing (it is skipped;
`get_group_rules` is total, so it never fails). -/
theorem C6_grant_exactly_one_of_group_or_cidr :
    (∀ (g : Grant) (s : String), flattenGrant g = some s →
        g.group_id = some s ∨ (g.group_id = none ∧ g.cidr_ip = some s)) ∧
    (∀ g : Grant, g.group_id = none → g.cidr_ip = none → flattenGrant g = none) ∧
    (∀ (l : List PermissionRule) (r : RuleRecord), r ∈ get_group_rules l →
      ∀ s ∈ r.grants, ∃ rule ∈ l, ∃ g ∈ rule.grants,
        g.group_id = some s ∨ (g.group_id = none ∧ g.cidr_ip = some s)) := by
  refine ⟨fun g s h => flattenGrant_eq_some g s h, ?_, ?_⟩
  · intro g hg hc
    simp [flattenGrant, hg, hc]
  · intro l r hr s hs
    obtain ⟨rule, hrule, hfr⟩ := List.mem_map.mp hr
    subst hfr
    obtain ⟨g, hg, hgs⟩ := List.mem_filterMap.mp hs
    exact ⟨rule, hrule, g, hg, flattenGrant_eq_some g s hgs⟩

/-- C6 witness: the theorem applied to a concrete CIDR-only grant. -/
theorem C6_grant_exactly_one_of_group_or_cidr_witness :
    (Grant.mk none (some "0.0.0.0/0")).group_id = some "0.0.0.0/0" ∨
    ((Grant.mk none (some "0.0.0.0/0")).group_id = none ∧
     (Grant.mk none (some "0.0.0.0/0")).cidr_ip = some "0.0.0.0/0") :=
  C6_grant_exactly_one_of_group_or_cidr.1 (Grant.mk none (some "0.0.0.0/0"))
    "0.0.0.0/0" rfl

/-- Flattening one instance's membership list yields one id occurrence per
matching membership. -/
lemma length_filterMap_membership (gid s : String) (ms : List VpcMembership) :
    (ms.filterMap fun m => if gid = m.vpc_group then some s else none).length =
      ms.countP fun m => gid == m.vpc_group := by
  induction ms with
  | nil => rfl
  | cons m ms ih =>
    by_cases h : gid = m.vpc_group
    · subst h
      simp [List.filterMap_cons, List.countP_cons, ih]
    · simp [List.filterMap_cons, List.countP_cons, if_neg h, h, ih]

/-- C4 counterexample: the single RDS instance `db1` of `rdsDupInventory`
lists `sg-1` twice among its memberships, and `get_rds_instances` emits its
id twice — not one entry per associated database instance. -/
theorem C4_counterexample :
    get_rds_instances envRdsDup sgExample = Except.ok ["db1", "db1"] ∧
    rdsDupInventory.length = 1 := by
  exact ⟨rfl, rfl⟩

/-- C4 amended: the rds component contains a database instance's identifier
exactly when some VPC security-group membership of that instance references
the group id, with one entry per matching membership (so an instance listing
the group several times appears several times). -/
theorem C4_rds_membership_characterization (env : AwsEnv)
    (group : SecurityGroup) (inv : List RdsInstance)
    (h : env.get_all_dbinstances = Except.ok inv) :
    ∃ out, get_rds_instances env group = Except.ok out ∧
      (∀ s : String, s ∈ out ↔
        ∃ rds ∈ inv, rds.id = s ∧
          ∃ m ∈ rds.vpc_security_groups, m.vpc_group = group.id) ∧
      out.length =
        (inv.map fun rds =>
          rds.vpc_security_groups.countP fun m => group.id == m.vpc_group).sum := by
  have hout : get_rds_instances env group =
      Except.ok (inv.flatMap fun rds =>
        rds.vpc_security_groups.filterMap fun membership =>
          if group.id = membership.vpc_group then some rds.id else none) := by
    unfold get_rds_instances
    rw [h]
  refine ⟨_, hout, ?_, ?_⟩
  · intro s
    constructor
    · intro hs
      obtain ⟨rds, hrds, hs2⟩ := List.mem_flatMap.mp hs
      obtain ⟨m, hm, hif⟩ := List.mem_filterMap.mp hs2
      obtain ⟨hc, hid⟩ := ite_some_none_eq_some.mp hif
      exact ⟨rds, hrds, hid, m, hm, hc.symm⟩
    · rintro ⟨rds, hrds, hid, m, hm, hmg⟩
      exact List.mem_flatMap.mpr ⟨rds, hrds,
        List.mem_filterMap.mpr ⟨m, hm, ite_some_none_eq_some.mpr ⟨hmg.symm, hid⟩⟩⟩
  · rw [List.length_flatMap]
    congr 1
    apply List.map_congr_left
    intro rds _
    exact length_filterMap_membership group.id rds.id rds.vpc_security_groups

/-- C4 witness: the amended characterization evaluated on the concrete
duplicate-membership inventory. -/
theorem C4_rds_membership_characterization_witness :
    ∃ out, get_rds_instances envRdsDup sgExample = Except.ok out ∧
      (∀ s : String, s ∈ out ↔
        ∃ rds ∈ rdsDupInventory, rds.id = s ∧
          ∃ m ∈ rds.vpc_security_groups, m.vpc_group = sgExample.id) ∧
      out.length =
        (rdsDupInventory.map fun rds =>
          rds.vpc_security_groups.countP fun m =>
            sgExample.id == m.vpc_group).sum :=
  C4_rds_membership_characterization envRdsDup sgExample rdsDupInventory rfl

/-- C10: when a grant carries both a referenced security-group identifier
and a CIDR string, `get_group_rules` emits only the group identifier: the
group reference takes precedence and the CIDR is dropped for that grant. -/
theorem C10_group_reference_takes_precedence (gid c p : String)
    (fp tp : Option Int) :
    flattenGrant { group_id := some gid, cidr_ip := some c } = some gid ∧
    get_group_rules [{ ip_protocol := p, from_port := fp, to_port := tp,
                       grants := [{ group_id := some gid, cidr_ip := some c }] }]
      = [{ ip_protocol := p, from_port := fp, to_port := tp,
           grants := [gid] }] := by
  constructor
  · rfl
  · simp [get_group_rules, flattenGrant]

/-- C7: in every successful `get_group_info` output the `resources` mapping
carries exactly the four keys ec2, elb, eni, rds (in that order), and every
kind not requested directly or via `all` is mapped to the empty list. -/
theorem C7_unrequested_kinds_empty (env : AwsEnv) (lookup : List String)
    (group : SecurityGroup) (info : GroupInfo)
    (h : get_group_info env lookup group = Except.ok info) :
    info.resources.map Prod.fst = ["ec2", "elb", "eni", "rds"] ∧
    (requested lookup "ec2" = false →
      info.resources.lookup "ec2" = some []) ∧
    (requested lookup "elb" = false →
      info.resources.lookup "elb" = some []) ∧
    (requested lookup "eni" = false →
      info.resources.lookup "eni" = some []) ∧
    (requested lookup "rds" = false →
      info.resources.lookup "rds" = some []) := by
  obtain ⟨a, b, c, d, ha, hb, hc, hd, hinfo⟩ :=
    get_group_info_ok_shape env lookup group info h
  subst hinfo
  refine ⟨rfl, ?_, ?_, ?_, ?_⟩
  · intro hreq
    rw [hreq] at ha
    simp at ha
    subst ha
    rfl
  · intro hreq
    rw [hreq] at hb
    simp at hb
    subst hb
    rfl
  · intro hreq
    rw [hreq] at hc
    simp at hc
    subst hc
    rfl
  · intro hreq
    rw [hreq] at hd
    simp at hd
    subst hd
    rfl

/-- C7 witness: the theorem applied to the empty lookup list on a concrete
environment, with all four implications discharged. -/
theorem C7_unrequested_kinds_empty_witness :
    infoEmptyLookup.resources.map Prod.fst = ["ec2", "elb", "eni", "rds"] ∧
    infoEmptyLookup.resources.lookup "ec2" = some [] ∧
    infoEmptyLookup.resources.lookup "elb" = some [] ∧
    infoEmptyLookup.resources.lookup "eni" = some [] ∧
    infoEmptyLookup.resources.lookup "rds" = some [] := by
  have h := C7_unrequested_kinds_empty envRdsDup [] sgExample infoEmptyLookup rfl
  exact ⟨h.1, h.2.1 rfl, h.2.2.1 rfl, h.2.2.2.1 rfl, h.2.2.2.2 rfl⟩

/-- C8: resolving with any lookup list containing `all` yields the same
output as resolving with the explicit list ec2, elb, eni, rds. -/
theorem C8_all_lookup_equals_explicit (env : AwsEnv) (group : SecurityGroup)
    (lookup : List String) (h : "all" ∈ lookup) :
    get_group_info env lookup group =
      get_group_info env ["ec2", "elb", "eni", "rds"] group := by
  have hall : lookup.contains "all" = true := by simpa using h
  have hreq : ∀ kind : String, requested lookup kind = true := by
    intro kind
    simp [requested, hall]
    exact Or.inr h
  have r1 : requested ["ec2", "elb", "eni", "rds"] "ec2" = true := by decide
  have r2 : requested ["ec2", "elb", "eni", "rds"] "elb" = true := by decide
  have r3 : requested ["ec2", "elb", "eni", "rds"] "eni" = true := by decide
  have r4 : requested ["ec2", "elb", "eni", "rds"] "rds" = true := by decide
  unfold get_group_info
  rw [hreq "ec2", hreq "elb", hreq "eni", hreq "rds", r1, r2, r3, r4]

/-- C8 witness: the equivalence evaluated on a concrete environment with the
lookup list consisting of `all` alone. -/
theorem C8_all_lookup_equals_explicit_witness :
    get_group_info envRdsDup ["all"] sgExample =
      get_group_info envRdsDup ["ec2", "elb", "eni", "rds"] sgExample :=
  C8_all_lookup_equals_explicit envRdsDup sgExample ["all"] (by decide)

/-- If any group of the list fails in `get_group_info`, the whole
`collect_group_infos` run fails: no output list exists. -/
lemma collect_group_infos_error_of_mem (env : AwsEnv) (lookup : List String)
    (g : SecurityGroup) (e : ModuleExit)
    (herr : get_group_info env lookup g = Except.error e) :
    ∀ gs : List SecurityGroup, g ∈ gs →
      ∀ out : List GroupInfo,
        collect_group_infos env lookup gs ≠ Except.ok out := by
  intro gs
  induction gs with
  | nil =>
    intro hmem
    simp at hmem
  | cons hd tl ih =>
    intro hmem out hok
    unfold collect_group_infos at hok
    split at hok
    · simp at hok
    next info hinfo =>
      split at hok
      · simp at hok
      next arr harr =>
        rcases List.mem_cons.mp hmem with heq | hmem'
        · subst heq
          rw [herr] at hinfo
          simp at hinfo
        · exact ih hmem' arr harr

/-- C9: the facts aggregation is atomic.  If the initial group-listing call
fails, or `get_group_info` fails for any group of the listing (at any
position), then `list_group` emits no output list at all — never a partial
list. -/
theorem C9_atomic_no_partial_output (env : AwsEnv) (filters : Filters)
    (lookup : List String)
    (h : (∃ e, env.get_all_security_groups filters = Except.error e) ∨
         (∃ gs g e, env.get_all_security_groups filters = Except.ok gs ∧
            g ∈ gs ∧ get_group_info env lookup g = Except.error e)) :
    ∀ out : List GroupInfo, list_group env filters lookup ≠ Except.ok out := by
  intro out hok
  unfold list_group at hok
  rcases h with ⟨e, he⟩ | ⟨gs, g, e, hgs, hmem, herr⟩
  · rw [he] at hok
    simp at hok
  · rw [hgs] at hok
    exact collect_group_infos_error_of_mem env lookup g e herr gs hmem out hok

/-- C9 witness: in an aggregation over three groups whose third group's
network-interface lookup fails, no output list is emitted. -/
theorem C9_atomic_no_partial_output_witness :
    list_group envEniFail [] ["eni"] ≠ Except.ok [] :=
  C9_atomic_no_partial_output envEniFail [] ["eni"]
    (Or.inr ⟨[sgExample, sgExample2, sgExample3], sgExample3,
      ModuleExit.failJson "AuthFailure: denied", rfl, by decide, rfl⟩) []

/-- C1 counterexample: when the initial group listing fails with error code
`AuthFailure` and message `denied`, the module fails with
`fail_json(msg="denied")`: the surfaced message is only the provider's
message, and the provider's error code occurs nowhere in it (the message has
no character `A` while the code contains one) — the structured error does
not surface the provider's error code. -/
theorem C1_counterexample :
    list_group envListFail [] ["all"] =
      Except.error (ModuleExit.failJson "denied") ∧
    "denied".data.count (Char.ofNat 65) = 0 ∧
    "AuthFailure".data.count (Char.ofNat 65) = 1 := by
  exact ⟨rfl, by decide, by decide⟩

/-- C1 amended: a provider failure of any requested kind (or of the initial
listing) is fatal with no partial result, but the surfaced error differs by
kind: the elb, eni and rds lookups fail with a structured message
`"code: message"`; the ec2 per-group instance call has no handler, so its
provider error propagates as an uncaught exception; the initial group
listing failure surfaces only the provider's message, dropping the code. -/
theorem C1_provider_error_propagation :
    (∀ (env : AwsEnv) (g : SecurityGroup) (e : ProviderError),
       env.get_all_dbinstances = Except.error e →
       get_rds_instances env g = Except.error
         (ModuleExit.failJson (e.error_code ++ ": " ++ e.error_message))) ∧
    (∀ (env : AwsEnv) (g : SecurityGroup) (e : ProviderError),
       env.get_all_network_interfaces g.id = Except.error e →
       get_network_interfaces env g = Except.error
         (ModuleExit.failJson (e.error_code ++ ": " ++ e.error_message))) ∧
    (∀ (env : AwsEnv) (g : SecurityGroup) (e : ProviderError),
       env.get_all_load_balancers = Except.error e →
       get_associated_loadbalancers env g = Except.error
         (ModuleExit.failJson (e.error_code ++ ": " ++ e.error_message))) ∧
    (∀ (env : AwsEnv) (g : SecurityGroup) (e : ProviderError),
       env.group_instances g.id = Except.error e →
       get_associated_instances env g =
         Except.error (ModuleExit.uncaught e)) ∧
    (∀ (env : AwsEnv) (filters : Filters) (lookup : List String)
       (e : ProviderError),
       env.get_all_security_groups filters = Except.error e →
       list_group env filters lookup =
         Except.error (ModuleExit.failJson e.error_message)) ∧
    (∀ (env : AwsEnv) (lookup : List String) (g : SecurityGroup)
       (me : ModuleExit), requested lookup "ec2" = true →
       get_associated_instances env g = Except.error me →
       ∀ info, get_group_info env lookup g ≠ Except.ok info) ∧
    (∀ (env : AwsEnv) (lookup : List String) (g : SecurityGroup)
       (me : ModuleExit), requested lookup "elb" = true →
       get_associated_loadbalancers env g = Except.error me →
       ∀ info, get_group_info env lookup g ≠ Except.ok info) ∧
    (∀ (env : AwsEnv) (lookup : List String) (g : SecurityGroup)
       (me : ModuleExit), requested lookup "eni" = true →
       get_network_interfaces env g = Except.error me →
       ∀ info, get_group_info env lookup g ≠ Except.ok info) ∧
    (∀ (env : AwsEnv) (lookup : List String) (g : SecurityGroup)
       (me : ModuleExit), requested lookup "rds" = true →
       get_rds_instances env g = Except.error me →
       ∀ info, get_group_info env lookup g ≠ Except.ok info) := by
  refine ⟨?_, ?_, ?_, ?_, ?_, ?_, ?_, ?_, ?_⟩
  · intro env g e h
    unfold get_rds_instances
    rw [h]
  · intro env g e h
    unfold get_network_interfaces
    rw [h]
  · intro env g e h
    unfold get_associated_loadbalancers
    rw [h]
  · intro env g e h
    unfold get_associated_instances
    rw [h]
  · intro env filters lookup e h
    unfold list_group
    rw [h]
  · intro env lookup g me hreq herr info hok
    obtain ⟨a, b, c, d, ha, hb, hc, hd, hinfo⟩ :=
      get_group_info_ok_shape env lookup g info hok
    rw [hreq] at ha
    simp at ha
    rw [herr] at ha
    simp at ha
  · intro env lookup g me hreq herr info hok
    obtain ⟨a, b, c, d, ha, hb, hc, hd, hinfo⟩ :=
      get_group_info_ok_shape env lookup g info hok
    rw [hreq] at hb
    simp at hb
    rw [herr] at hb
    simp at hb
  · intro env lookup g me hreq herr info hok
    obtain ⟨a, b, c, d, ha, hb, hc, hd, hinfo⟩ :=
      get_group_info_ok_shape env lookup g info hok
    rw [hreq] at hc
    simp at hc
    rw [herr] at hc
    simp at hc
  · intro env lookup g me hreq herr info hok
    obtain ⟨a, b, c, d, ha, hb, hc, hd, hinfo⟩ :=
      get_group_info_ok_shape env lookup g info hok
    rw [hreq] at hd
    simp at hd
    rw [herr] at hd
    simp at hd

/-- C1 witness: all nine conjuncts of the amended propagation statement
applied to the environment whose every provider call fails. -/
theorem C1_provider_error_propagation_witness :
    get_rds_instances envAllFail sgExample =
      Except.error (ModuleExit.failJson "Throttling: rate exceeded") ∧
    get_network_interfaces envAllFail sgExample =
      Except.error (ModuleExit.failJson "Throttling: rate exceeded") ∧
    get_associated_loadbalancers envAllFail sgExample =
      Except.error (ModuleExit.failJson "Throttling: rate exceeded") ∧
    get_associated_instances envAllFail sgExample =
      Except.error (ModuleExit.uncaught ⟨"Throttling", "rate exceeded"⟩) ∧
    list_group envAllFail [] ["all"] =
      Except.error (ModuleExit.failJson "rate exceeded") ∧
    get_group_info envAllFail ["all"] sgExample ≠ Except.ok infoEmptyLookup := by
  have h := C1_provider_error_propagation
  refine ⟨?_, ?_, ?_, ?_, ?_, ?_⟩
  · exact h.1 envAllFail sgExample ⟨"Throttling", "rate exceeded"⟩ rfl
  · exact h.2.1 envAllFail sgExample ⟨"Throttling", "rate exceeded"⟩ rfl
  · exact h.2.2.1 envAllFail sgExample ⟨"Throttling", "rate exceeded"⟩ rfl
  · exact h.2.2.2.1 envAllFail sgExample ⟨"Throttling", "rate exceeded"⟩ rfl
  · exact h.2.2.2.2.1 envAllFail [] ["all"]
      ⟨"Throttling", "rate exceeded"⟩ rfl
  · exact h.2.2.2.2.2.1 envAllFail ["all"] sgExample
      (ModuleExit.uncaught ⟨"Throttling", "rate exceeded"⟩) rfl rfl
      infoEmptyLookup

end Ec2GroupFacts

namespace IamUserFacts

open Ec2GroupFacts (ProviderError ModuleExit)

/-- A concrete IAM user named alice under path `/`. -/
def alice : IamUser :=
  { UserName := "alice", Path := "/", UserId := "AIDALICE",
    Arn := "arn:aws:iam::1:user/alice" }

/-- A concrete IAM user named bob under path `/`. -/
def bob : IamUser :=
  { UserName := "bob", Path := "/", UserId := "AIDBOB",
    Arn := "arn:aws:iam::1:user/bob" }

/-- A connection whose `get_user` always fails and whose `list_users` always
returns alice and bob. -/
def connDefault : IamConn :=
  { getUser := fun _ => Except.error ⟨"NoSuchEntity", "user missing"⟩
    listUsers := fun _ => Except.ok [alice, bob] }

/-- A connection whose `get_user` always succeeds and whose `list_users`
always returns alice and bob. -/
def connGetOk : IamConn :=
  { getUser := fun userName =>
      Except.ok { UserName := userName, Path := "/", UserId := "AID0",
                  Arn := "arn0" }
    listUsers := fun _ => Except.ok [alice, bob] }

/-- With a truthy `name` and the default path `/`, `list_iam_users` issues
exactly one `list_users` call (path prefix `/`, max items 1000, no
user-name parameter) and returns its exact-name filtered result; `get_user`
is never consulted. -/
lemma list_iam_users_default_path (conn : IamConn) (n : String)
    (hn : n.isEmpty = false) :
    list_iam_users conn (some n) "/" =
      ([IamCall.listUsers ⟨none, some 1000, some "/"⟩],
       match conn.listUsers ⟨none, some 1000, some "/"⟩ with
       | Except.error e => Except.error (ModuleExit.failJson e.error_message)
       | Except.ok iam_users =>
           Except.ok (iam_users.filter fun user => user.UserName == n)) := by
  unfold list_iam_users
  have hT : pyTruthy (some n) = true := by simp [pyTruthy, hn]
  rw [hT]
  have hpe : ("/" : String).isEmpty = false := rfl
  rw [hpe]
  simp only [Bool.and_false, if_neg Bool.false_ne_true, if_neg, hT]
  rcases hl : conn.listUsers ⟨none, some 1000, some "/"⟩ with e | us
  · simp [hl]
  · simp [hl, hT]

/-- With a truthy `name` and an explicitly empty path, `list_iam_users`
issues `get_user` first; when that succeeds, it issues `list_users` with the
user-name parameter (and no path prefix), discards the `get_user` result and
returns the filtered listing. -/
lemma list_iam_users_empty_path (conn : IamConn) (n : String)
    (hn : n.isEmpty = false) (u : IamUser)
    (hu : conn.getUser n = Except.ok u) :
    list_iam_users conn (some n) "" =
      ([IamCall.getUser n, IamCall.listUsers ⟨some n, none, none⟩],
       match conn.listUsers ⟨some n, none, none⟩ with
       | Except.error e => Except.error (ModuleExit.failJson e.error_message)
       | Except.ok iam_users =>
           Except.ok (iam_users.filter fun user => user.UserName == n)) := by
  have hT : pyTruthy (some n) = true := by simp [pyTruthy, hn]
  rcases hl : conn.listUsers ⟨some n, none, none⟩ with e | us <;>
    simp [list_iam_users, hT, hu, hl, show ("" : String).isEmpty = true from rfl]

end IamUserFacts

namespace IamUserFacts

open Ec2GroupFacts (ProviderError ModuleExit)

/-- A non-empty string is not Python-falsy. -/
lemma isEmpty_false_of_ne (n : String) (hn : n ≠ "") : n.isEmpty = false := by
  cases h : n.isEmpty with
  | false => rfl
  | true => exact absurd ((String.isEmpty_iff n).mp h) hn

/-- C2 counterexample: looking up `name="bob"` with no path given, the
module's provider-call trace is a single `list_users` call with path prefix
`/` — no get-by-name call is issued at all (the argument-spec default
`path='/'` makes `if name and not path:` false). -/
theorem C2_counterexample :
    (iam_main connDefault (some "bob") none).1 =
      [IamCall.listUsers ⟨none, some 1000, some "/"⟩] ∧
    IamCall.getUser "bob" ∉ (iam_main connDefault (some "bob") none).1 := by
  constructor
  · rfl
  · decide

/-- C2 amended: when `name` is given and `path` is not given, the path
defaults to `/`, so no get-by-name call is issued: the module makes exactly
one list-by-path call (prefix `/`, max items 1000) and filters its result to
the exact name match.  The get-by-name branch fires only when `path` is
explicitly empty; there, after a successful get-by-name, the subsequent
listing call carries the user-name parameter instead of a path prefix, and
the get-by-name result is discarded in favour of the filtered listing. -/
theorem C2_amended_lookup_sequence (conn : IamConn) (n : String)
    (hn : n ≠ "") :
    (iam_main conn (some n) none).1 =
      [IamCall.listUsers ⟨none, some 1000, some "/"⟩] ∧
    (∀ us, conn.listUsers ⟨none, some 1000, some "/"⟩ = Except.ok us →
       (iam_main conn (some n) none).2 =
         Except.ok (us.filter fun user => user.UserName == n)) ∧
    (∀ u, conn.getUser n = Except.ok u →
       (list_iam_users conn (some n) "").1 =
         [IamCall.getUser n, IamCall.listUsers ⟨some n, none, none⟩] ∧
       ∀ us, conn.listUsers ⟨some n, none, none⟩ = Except.ok us →
         (list_iam_users conn (some n) "").2 =
           Except.ok (us.filter fun user => user.UserName == n)) := by
  have hne : n.isEmpty = false := isEmpty_false_of_ne n hn
  have hrw := list_iam_users_default_path conn n hne
  refine ⟨?_, ?_, ?_⟩
  · show (list_iam_users conn (some n) "/").1 = _
    rw [hrw]
  · intro us hl
    show (list_iam_users conn (some n) "/").2 = _
    rw [hrw, hl]
  · intro u hu
    have hrw2 := list_iam_users_empty_path conn n hne u hu
    constructor
    · rw [hrw2]
    · intro us hl
      rw [hrw2, hl]

/-- C2 witness: the amended sequence evaluated on a concrete connection, in
both the default-path and the explicitly-empty-path scenarios. -/
theorem C2_amended_lookup_sequence_witness :
    (iam_main connGetOk (some "bob") none).1 =
      [IamCall.listUsers ⟨none, some 1000, some "/"⟩] ∧
    (iam_main connGetOk (some "bob") none).2 = Except.ok [bob] ∧
    (list_iam_users connGetOk (some "bob") "").1 =
      [IamCall.getUser "bob", IamCall.listUsers ⟨some "bob", none, none⟩] ∧
    (list_iam_users connGetOk (some "bob") "").2 = Except.ok [bob] := by
  have h := C2_amended_lookup_sequence connGetOk "bob" (by decide)
  have h3 := h.2.2
    { UserName := "bob", Path := "/", UserId := "AID0", Arn := "arn0" } rfl
  refine ⟨h.1, ?_, h3.1, ?_⟩
  · exact (h.2.1 [alice, bob] rfl).trans (congrArg Except.ok (by decide))
  · exact (h3.2 [alice, bob] rfl).trans (congrArg Except.ok (by decide))

/-- C3: with only a name supplied (path left to its default `/`), the final
result is exactly the default-path listing filtered to the exact name match,
and it does not depend on the connection's get-by-name behaviour at all: any
connection with the same `list_users` results produces the same output. -/
theorem C3_name_only_uses_default_listing (conn : IamConn) (n : String)
    (hn : n ≠ "") (us : List IamUser)
    (hl : conn.listUsers ⟨none, some 1000, some "/"⟩ = Except.ok us) :
    (iam_main conn (some n) none).2 =
      Except.ok (us.filter fun user => user.UserName == n) ∧
    ∀ conn2 : IamConn, conn2.listUsers = conn.listUsers →
      iam_main conn2 (some n) none = iam_main conn (some n) none := by
  have hne : n.isEmpty = false := isEmpty_false_of_ne n hn
  constructor
  · show (list_iam_users conn (some n) "/").2 = _
    rw [list_iam_users_default_path conn n hne, hl]
  · intro conn2 h2
    show list_iam_users conn2 (some n) "/" = list_iam_users conn (some n) "/"
    rw [list_iam_users_default_path conn n hne,
        list_iam_users_default_path conn2 n hne, h2]

/-- C3 witness: the lookup for bob on a connection whose get-by-name call
would fail returns exactly the user bob from the default-path listing, and a
connection whose get-by-name call would succeed gives the identical result. -/
theorem C3_name_only_uses_default_listing_witness :
    (iam_main connDefault (some "bob") none).2 = Except.ok [bob] ∧
    iam_main connGetOk (some "bob") none =
      iam_main connDefault (some "bob") none := by
  have h := C3_name_only_uses_default_listing connDefault "bob" (by decide)
    [alice, bob] rfl
  exact ⟨h.1.trans (congrArg Except.ok (by decide)), h.2 connGetOk rfl⟩

end IamUserFacts
